import Mathlib

/-!
Verification development for the ICP Insurance Claim Platform.

The data model is embedded from the TypeScript type declarations
(`UserRole`, `ClaimStatus`, `Comment`, `Estimate`, `RepairShopSuggestion`,
`Claim`); the operations are embedded from the handlers in `App.tsx` /
`ClaimDetail` (`handleStatusChange`, `handleRejectClaim`, `handleNegotiate`,
`handleAddComment`, `handleApproveEstimate`, `handleCreateClaim`) and from
the AI gateway adapter (`analyzeDamage`, `findRepairShops`).

Conventions of the shallow embedding:
- JavaScript numeric amounts are modelled as exact rationals (`ℚ`);
  `Date.now()` timestamps as naturals threaded through each handler as a
  `now` parameter (fresh comment ids are `toString now`, as in the source
  where ids are `Date.now().toString()`).
- The asynchronous AI gateway calls are modelled by passing the outcome of
  the external call (`Except Unit result`) as an argument: `Except.error`
  stands for the underlying call throwing, `Except.ok` for it resolving.
- React state updates (`onUpdateClaim`, `setClaims`) become pure functions
  `Claim → Claim`: each handler returns the claim record it writes back.
-/

namespace ICP

inductive UserRole where
  | Policyholder
  | RepairShop
  | InsuranceAgent
deriving DecidableEq, Repr, Fintype

/-- String value of the `UserRole` enum member, as declared in the
TypeScript enum (`'Policyholder' | 'Repair Shop' | 'Insurance Agent'`). -/
def UserRole.label : UserRole → String
  | .Policyholder => "Policyholder"
  | .RepairShop => "Repair Shop"
  | .InsuranceAgent => "Insurance Agent"

inductive ClaimStatus where
  | Submitted
  | AIReview
  | Estimated
  | Approved
  | InRepair
  | PickUpPending
  | Closed
  | Rejected
deriving DecidableEq, Repr, Fintype

/-- Source tag of an estimate: `'AI' | 'Repair Shop' | 'Insurance Agent'`. -/
inductive EstimateSource where
  | AI
  | RepairShop
  | InsuranceAgent
deriving DecidableEq, Repr

structure Estimate where
  totalCost : ℚ
  laborCost : ℚ
  partsCost : ℚ
  details : String
  source : EstimateSource
deriving DecidableEq, Repr

structure Comment where
  id : String
  authorRole : UserRole
  authorName : String
  text : String
  timestamp : ℕ
deriving DecidableEq, Repr

structure RepairShopSuggestion where
  name : String
  address : String
  rating : Option String
  websiteUri : Option String
deriving DecidableEq, Repr

structure Claim where
  id : String
  policyNumber : String
  policyholderName : String
  vehicleModel : String
  vehicleYear : String
  accidentDetails : String
  status : ClaimStatus
  damageImages : List String
  aiDamageAssessment : Option String
  aiEstimate : Option Estimate
  aiConfidenceScore : Option ℕ
  suggestedShops : Option (List RepairShopSuggestion)
  currentEstimate : Option Estimate
  repairShopEstimate : Option Estimate
  agentEstimate : Option Estimate
  comments : List Comment
  createdAt : ℕ
  updatedAt : ℕ
deriving DecidableEq, Repr

structure CreateClaimData where
  policyNumber : String
  vehicleModel : String
  vehicleYear : String
  accidentDetails : String
deriving DecidableEq, Repr

/-! ### String helpers used by the handlers

`formatCurrency` embeds `Intl.NumberFormat('en-US', {style:'currency',
currency:'USD'}).format`: a dollar sign, digit grouping by thousands and two
decimal digits. `parseFloat?` embeds JavaScript `parseFloat` on the decimal
strings the `type="number"` input produces (`NaN`, which a rational cannot
represent, arises only for non-numeric strings that this input never
yields; `parseFloatD` defaults those to 0). -/

/-- Group a reversed digit list with a comma after every third digit. -/
def groupRev : List Char → List Char
  | a :: b :: c :: d :: rest => a :: b :: c :: ',' :: groupRev (d :: rest)
  | l => l

def groupDigits (s : String) : String :=
  String.mk (groupRev s.data.reverse).reverse

def formatCurrency (q : ℚ) : String :=
  let cents : ℤ := round (q * 100)
  let sign := if cents < 0 then "-" else ""
  let n := cents.natAbs
  let dollars := n / 100
  let rem := n % 100
  sign ++ "$" ++ groupDigits (toString dollars) ++ "." ++
    (if rem < 10 then "0" else "") ++ toString rem

def natOfDigits (l : List Char) : ℕ :=
  l.foldl (fun acc c => acc * 10 + (c.toNat - 48)) 0

def parseFloat? (s : String) : Option ℚ :=
  let signAndRest : ℚ × List Char :=
    match s.data with
    | '-' :: r => (-1, r)
    | '+' :: r => (1, r)
    | r => (1, r)
  let intPart := signAndRest.2.takeWhile Char.isDigit
  let afterInt := signAndRest.2.dropWhile Char.isDigit
  let fracPart :=
    match afterInt with
    | '.' :: r => r.takeWhile Char.isDigit
    | _ => []
  if intPart = [] ∧ fracPart = [] then none
  else some (signAndRest.1 *
    ((natOfDigits intPart : ℚ) + (natOfDigits fracPart : ℚ) / 10 ^ fracPart.length))

def parseFloatD (s : String) : ℚ := (parseFloat? s).getD 0

/-! ### Handlers of `ClaimDetail` -/

/-- `handleAddComment`: returns unless the trimmed text is non-empty, then
appends one comment authored by the current role (author name is the role's
enum string, as in the source `authorName: userRole`). -/
def handleAddComment (claim : Claim) (userRole : UserRole) (commentText : String)
    (now : ℕ) : Claim :=
  if commentText.trim = "" then claim
  else
    { claim with
      comments := claim.comments ++
        [{ id := toString now, authorRole := userRole, authorName := userRole.label,
           text := commentText, timestamp := now }] }

/-- `handleStatusChange`: `onUpdateClaim({ ...claim, status: newStatus })` —
the requested status is applied unconditionally; no validation occurs. -/
def handleStatusChange (claim : Claim) (newStatus : ClaimStatus) : Claim :=
  { claim with status := newStatus }

/-- `handleRejectClaim`: returns if the reason is empty (falsy), else sets
status `Rejected` and appends the audit comment in the same update. -/
def handleRejectClaim (claim : Claim) (rejectReason : String) (now : ℕ) : Claim :=
  if rejectReason = "" then claim
  else
    { claim with
      status := ClaimStatus.Rejected,
      comments := claim.comments ++
        [{ id := toString now, authorRole := UserRole.InsuranceAgent,
           authorName := "Agent", text := "CLAIM REJECTED: " ++ rejectReason,
           timestamp := now }] }

/-- `handleNegotiate`: returns if either input string is empty (falsy); else
builds the 0.6/0.4-split estimate from `parseFloat(negotiationAmount)`,
routes it by role (shop → `repairShopEstimate`; agent → `agentEstimate` and
`currentEstimate`), and appends the proposal comment. -/
def handleNegotiate (claim : Claim) (userRole : UserRole)
    (negotiationAmount negotiationReason : String) (now : ℕ) : Claim :=
  if negotiationAmount = "" ∨ negotiationReason = "" then claim
  else
    let amount := parseFloatD negotiationAmount
    let newEstimate : Estimate :=
      { totalCost := amount, laborCost := amount * (6/10), partsCost := amount * (4/10),
        details := negotiationReason,
        source := if userRole = UserRole.InsuranceAgent then EstimateSource.InsuranceAgent
                  else EstimateSource.RepairShop }
    let c1 :=
      if userRole = UserRole.RepairShop then
        { claim with repairShopEstimate := some newEstimate }
      else if userRole = UserRole.InsuranceAgent then
        { claim with agentEstimate := some newEstimate, currentEstimate := some newEstimate }
      else claim
    { c1 with
      comments := c1.comments ++
        [{ id := toString now, authorRole := userRole, authorName := userRole.label,
           text := "Proposed new estimate: " ++ formatCurrency amount ++
                   ". Reason: " ++ negotiationReason,
           timestamp := now }] }

/-- `handleApproveEstimate`: sets status `Approved`, nothing else. -/
def handleApproveEstimate (claim : Claim) : Claim :=
  { claim with status := ClaimStatus.Approved }

/-! ### AI gateway adapter (`geminiService`)

The external call is modelled by its outcome, passed as an argument:
`Except.error ()` for the underlying call throwing, `Except.ok _` for it
resolving. `AnalysisRaw` is the JSON object the `responseSchema` of
`analyzeDamage` requires (all five fields are `required`). -/

structure AnalysisRaw where
  assessment : String
  totalCost : ℚ
  laborCost : ℚ
  partsCost : ℚ
  repairDetails : String
deriving DecidableEq, Repr

structure AnalyzeResult where
  assessment : String
  estimate : Estimate
deriving DecidableEq, Repr

/-- The fallback value `analyzeDamage` returns from its catch block. -/
def degradedAnalysis : AnalyzeResult :=
  { assessment := "AI Analysis unavailable. Please review manually.",
    estimate := { totalCost := 0, laborCost := 0, partsCost := 0,
                  details := "Manual estimation required.",
                  source := EstimateSource.AI } }

/-- `analyzeDamage`: the image-to-part conversion precedes the try block, so
its failure propagates (`Except.error`); a failure of the model call itself
is caught and mapped to `degradedAnalysis`; on success the parsed fields are
repackaged into an `Estimate` with `source = AI`. -/
def analyzeDamage (imagePartsOutcome : Except Unit (List String))
    (aiOutcome : Except Unit AnalysisRaw) : Except Unit AnalyzeResult :=
  match imagePartsOutcome with
  | Except.error e => Except.error e
  | Except.ok _ =>
    match aiOutcome with
    | Except.ok r =>
      Except.ok
        { assessment := r.assessment,
          estimate := { totalCost := r.totalCost, laborCost := r.laborCost,
                        partsCost := r.partsCost, details := r.repairDetails,
                        source := EstimateSource.AI } }
    | Except.error _ => Except.ok degradedAnalysis

structure WebData where
  uri : Option String
  title : Option String
deriving DecidableEq, Repr

structure GroundingChunk where
  web : Option WebData
deriving DecidableEq, Repr

/-- The hardcoded list `findRepairShops` returns when no suggestion could be
extracted from the grounding chunks of a successful response. -/
def fallbackShops : List RepairShopSuggestion :=
  [{ name := "FixItRight Auto Body", address := "123 Main St, Local City",
     rating := some "4.8", websiteUri := none },
   { name := "Prestige Collision Center", address := "450 Oak Ave, Local City",
     rating := some "4.5", websiteUri := none },
   { name := "Quick Fix Garage", address := "789 Pine Ln, Local City",
     rating := some "4.2", websiteUri := none }]

/-- One iteration of the `chunks.forEach` loop: a suggestion is pushed only
when both `chunk.web?.uri` and `chunk.web?.title` are present. -/
def chunkToSuggestion (c : GroundingChunk) : Option RepairShopSuggestion :=
  match c.web with
  | some w =>
    match w.uri, w.title with
    | some u, some t =>
      some { name := t, address := "Check website for address",
             rating := none, websiteUri := some u }
    | _, _ => none
  | none => none

/-- `findRepairShops`: on a thrown call returns `[]`; on success extracts
suggestions from the (optional) grounding chunks and substitutes
`fallbackShops` when none were extracted. -/
def findRepairShops (outcome : Except Unit (Option (List GroundingChunk))) :
    List RepairShopSuggestion :=
  match outcome with
  | Except.error _ => []
  | Except.ok chunks =>
    let suggestions := (chunks.getD []).filterMap chunkToSuggestion
    if suggestions = [] then fallbackShops else suggestions

/-! ### Intake flow (`handleCreateClaim` in `App.tsx`) -/

/-- The base claim object built at the top of `handleCreateClaim`:
status is immediately `AIReview`, id is `Date.now().toString()`. -/
def baseClaim (data : CreateClaimData) (now : ℕ) : Claim :=
  { id := toString now, policyNumber := data.policyNumber,
    policyholderName := "Current User",
    vehicleModel := data.vehicleModel, vehicleYear := data.vehicleYear,
    accidentDetails := data.accidentDetails,
    status := ClaimStatus.AIReview, damageImages := [],
    aiDamageAssessment := none, aiEstimate := none, aiConfidenceScore := none,
    suggestedShops := none, currentEstimate := none, repairShopEstimate := none,
    agentEstimate := none, comments := [], createdAt := now, updatedAt := now }

/-- `handleCreateClaim`: creates the base claim, then inside the try block
processes the images, calls `analyzeDamage` and `findRepairShops`, and
writes the AI results with status `Estimated`; the catch block only resets
status to `Submitted` (it touches no other field). The image-processing
outcome is the sole throw source reaching the catch: `analyzeDamage` fed
successfully converted images never throws, and `findRepairShops` never
throws. -/
def handleCreateClaim (data : CreateClaimData) (now : ℕ)
    (imagesOutcome : Except Unit (List String))
    (aiOutcome : Except Unit AnalysisRaw)
    (shopsOutcome : Except Unit (Option (List GroundingChunk))) : Claim :=
  let base := baseClaim data now
  match imagesOutcome with
  | Except.error _ => { base with status := ClaimStatus.Submitted }
  | Except.ok processedImages =>
    match analyzeDamage imagesOutcome aiOutcome with
    | Except.error _ => { base with status := ClaimStatus.Submitted }
    | Except.ok analysis =>
      let shops := findRepairShops shopsOutcome
      { base with
        damageImages := processedImages,
        aiDamageAssessment := some analysis.assessment,
        aiEstimate := some analysis.estimate,
        currentEstimate := some analysis.estimate,
        suggestedShops := some shops,
        status := ClaimStatus.Estimated }

/-! ### View-layer gating

The only paths from a user intent to a handler are the controls the
`ClaimDetail` component renders; their render guards are embedded here.
There is no validation inside the handlers themselves. -/

/-- The single status-change control offered to a role at a status, from
`renderConfirmationActions`: agent approve on `Estimated`, shop start/finish
repair on `Approved`/`InRepair`, policyholder pickup on `PickUpPending`. -/
def uiOfferedTransition (role : UserRole) (s : ClaimStatus) : Option ClaimStatus :=
  match role, s with
  | UserRole.InsuranceAgent, ClaimStatus.Estimated => some ClaimStatus.Approved
  | UserRole.RepairShop, ClaimStatus.Approved => some ClaimStatus.InRepair
  | UserRole.RepairShop, ClaimStatus.InRepair => some ClaimStatus.PickUpPending
  | UserRole.Policyholder, ClaimStatus.PickUpPending => some ClaimStatus.Closed
  | _, _ => none

/-- Render guard of the rejection block: agent only, and the claim is not
`Closed`/`Rejected`. -/
def uiRejectOffered (role : UserRole) (s : ClaimStatus) : Bool :=
  role = UserRole.InsuranceAgent ∧ s ≠ ClaimStatus.Closed ∧ s ≠ ClaimStatus.Rejected

/-- Render guard of the negotiation form: shop or agent, and the claim is
not `Closed`/`Rejected`. -/
def uiNegotiateOffered (role : UserRole) (s : ClaimStatus) : Bool :=
  (role = UserRole.RepairShop ∨ role = UserRole.InsuranceAgent) ∧
    s ≠ ClaimStatus.Closed ∧ s ≠ ClaimStatus.Rejected

/-! ### Spec-side definitions (for refinement comparison only)

These two definitions follow the words of spec §4.1/§4.2, not the source;
they exist to be compared with the behaviour embedded above. -/

inductive Actor where
  | system
  | aiGateway
  | user (r : UserRole)
deriving DecidableEq, Repr

/-- Transition table of spec §4.1, verbatim: the seven listed rows plus the
agent-rejection row from any non-terminal state. -/
def specTransitionTable : Actor → ClaimStatus → ClaimStatus → Bool
  | Actor.system, ClaimStatus.Submitted, ClaimStatus.AIReview => true
  | Actor.aiGateway, ClaimStatus.AIReview, ClaimStatus.Estimated => true
  | Actor.system, ClaimStatus.AIReview, ClaimStatus.Submitted => true
  | Actor.user UserRole.InsuranceAgent, ClaimStatus.Estimated, ClaimStatus.Approved => true
  | Actor.user UserRole.RepairShop, ClaimStatus.Approved, ClaimStatus.InRepair => true
  | Actor.user UserRole.RepairShop, ClaimStatus.InRepair, ClaimStatus.PickUpPending => true
  | Actor.user UserRole.Policyholder, ClaimStatus.PickUpPending, ClaimStatus.Closed => true
  | Actor.user UserRole.InsuranceAgent, s, ClaimStatus.Rejected =>
    ¬(s = ClaimStatus.Closed ∨ s = ClaimStatus.Rejected)
  | _, _, _ => false

/-- Precedence rule of spec §4.2 for the active estimate: agent estimate if
present, else repair-shop estimate if present, else the AI estimate. -/
def specCurrentEstimate (c : Claim) : Option Estimate :=
  match c.agentEstimate with
  | some e => some e
  | none =>
    match c.repairShopEstimate with
    | some e => some e
    | none => c.aiEstimate

/-! ### Reachability

A step is any invocation of a `ClaimDetail` handler (with arbitrary
arguments: this over-approximates what the gated view layer can trigger, so
invariants proved over it hold a fortiori for the UI-reachable states). A
claim state is reachable when some intake result, or the hard-coded initial
mock claim, leads to it by finitely many steps. -/

inductive Step : Claim → Claim → Prop where
  | statusChange (c : Claim) (s : ClaimStatus) : Step c (handleStatusChange c s)
  | approve (c : Claim) : Step c (handleApproveEstimate c)
  | reject (c : Claim) (reason : String) (now : ℕ) :
      Step c (handleRejectClaim c reason now)
  | negotiate (c : Claim) (role : UserRole) (amt reason : String) (now : ℕ) :
      Step c (handleNegotiate c role amt reason now)
  | addComment (c : Claim) (role : UserRole) (text : String) (now : ℕ) :
      Step c (handleAddComment c role text now)

/-- The mock claim the application starts with (`INITIAL_CLAIMS`), with its
`Date.now()`-relative timestamps instantiated at a parameter `now`. -/
def initialMockClaim (now : ℕ) : Claim :=
  { id := "1", policyNumber := "POL-883920", policyholderName := "John Doe",
    vehicleModel := "Honda Civic", vehicleYear := "2020",
    accidentDetails := "Rear-ended at a stop sign. Bumper dented.",
    status := ClaimStatus.Estimated, damageImages := [],
    aiDamageAssessment := some ("Observed significant denting on rear bumper cover. " ++
      "Impact absorber likely compromised. Trunk lid alignment appears normal."),
    aiEstimate := some
      { totalCost := 1200, laborCost := 500, partsCost := 700,
        details := "Replace Rear Bumper Cover, Replace Impact Absorber, Paint & Blend.",
        source := EstimateSource.AI },
    aiConfidenceScore := none, suggestedShops := some
      [{ name := "Downtown Auto Fix", address := "123 Main St",
         rating := some "4.5", websiteUri := none },
       { name := "Quick Collision", address := "44 Broadway",
         rating := some "4.2", websiteUri := none }],
    currentEstimate := some
      { totalCost := 1200, laborCost := 500, partsCost := 700,
        details := "Replace Rear Bumper Cover, Replace Impact Absorber, Paint & Blend.",
        source := EstimateSource.AI },
    repairShopEstimate := none, agentEstimate := none,
    comments := [{ id := "c1", authorRole := UserRole.Policyholder,
                   authorName := "John Doe",
                   text := "Happened yesterday around 5pm.",
                   timestamp := now - 100000 }],
    createdAt := now - 200000, updatedAt := now }

/-- A claim state that can actually occur in a session: an intake result or
the initial mock claim, followed by any sequence of handler steps. -/
def Reachable (c : Claim) : Prop :=
  ∃ c0 : Claim,
    ((∃ data now io ao so, c0 = handleCreateClaim data now io ao so) ∨
      (∃ now, c0 = initialMockClaim now)) ∧
    Relation.ReflTransGen Step c0 c

/-- What the code actually keeps in `currentEstimate`: the agent estimate
when present, otherwise the AI estimate — the repair-shop estimate is never
consulted. -/
def agentOrAiEstimate (c : Claim) : Option Estimate :=
  match c.agentEstimate with
  | some e => some e
  | none => c.aiEstimate

/-- Sample intake input used by the concrete scenarios below. -/
def sampleIntakeData : CreateClaimData :=
  { policyNumber := "POL-1", vehicleModel := "Honda Civic", vehicleYear := "2020",
    accidentDetails := "Rear-ended at a stop sign." }

/-- Sample successful AI analysis payload. -/
def sampleRaw : AnalysisRaw :=
  { assessment := "Dented rear bumper.", totalCost := 1200, laborCost := 500,
    partsCost := 700, repairDetails := "Replace bumper cover." }

/-- Intake result with a successful AI analysis (shop search failing, which
only affects `suggestedShops`). -/
def c3Base : Claim :=
  handleCreateClaim sampleIntakeData 0 (Except.ok []) (Except.ok sampleRaw)
    (Except.error ())

/-- A repair-shop proposal on `c3Base` (which has no agent estimate). -/
def c3After : Claim :=
  handleNegotiate c3Base UserRole.RepairShop "1500" "Internal structural damage" 5

/-- A first rejection of the initial mock claim. -/
def rejectedOnce : Claim := handleRejectClaim (initialMockClaim 0) "Fraud suspected" 1

/-- A second rejection, invoked on the already-rejected claim. -/
def rejectedTwice : Claim := handleRejectClaim rejectedOnce "Duplicate call" 2

/-! ### Binary64 model of the split arithmetic

The source computes the cost split in JavaScript numbers, i.e. IEEE-754
binary64: `laborCost: amount * 0.6`, `partsCost: amount * 0.4` in
`handleNegotiate`. The exact-rational embedding above idealizes that
arithmetic; the model below reproduces it bit-exactly for positive normal
values (subnormals and overflow never arise at the magnitudes involved): a
value is a normalized mantissa–exponent pair `m * 2^e` with
`2^52 ≤ m < 2^53`, and every operation performs one rounding to nearest,
ties to even — exactly the binary64 semantics of the source's `*` and
of its numeric literals. -/

/-- Fuel-driven binary length: `bitsAux fuel n` is the number of binary
digits of `n`, for `n < 2^fuel`. -/
def bitsAux : ℕ → ℕ → ℕ
  | 0, _ => 0
  | fuel + 1, n => if n = 0 then 0 else bitsAux fuel (n / 2) + 1

def bitLen (n : ℕ) : ℕ := bitsAux 256 n

/-- Round `a / b` to the nearest integer, ties to even (for `b > 0`). -/
def rndDiv (a b : ℕ) : ℕ :=
  let q := a / b
  let r := a % b
  if 2 * r > b then q + 1
  else if 2 * r < b then q
  else if q % 2 = 0 then q else q + 1

/-- A positive binary64 value `m * 2^e` (normalized: `2^52 ≤ m < 2^53`). -/
structure FP where
  m : ℕ
  e : ℤ
deriving DecidableEq, Repr

/-- The rational value a binary64 datum denotes. -/
def fpToRat (x : FP) : ℚ := (x.m : ℚ) * (2 : ℚ) ^ x.e

/-- Floor of the base-2 logarithm of `num / den` (both positive). -/
def floorLog2Rat (num den : ℕ) : ℤ :=
  let d : ℤ := (bitLen num : ℤ) - (bitLen den : ℤ)
  if num * 2 ^ bitLen den ≥ den * 2 ^ bitLen num then d else d - 1

/-- The binary64 value nearest to `num / den` (round to nearest, ties to
even) — what a JavaScript decimal literal or a parsed number input
denotes. -/
def fpOfRat (num den : ℕ) : FP :=
  let L := floorLog2Rat num den
  let s : ℤ := 52 - L
  let a := num * 2 ^ s.toNat
  let b := den * 2 ^ (-s).toNat
  let m := rndDiv a b
  if m = 2 ^ 53 then { m := 2 ^ 52, e := L - 51 } else { m := m, e := L - 52 }

/-- Binary64 multiplication: exact integer product, then one rounding. -/
def fpMul (x y : FP) : FP :=
  let P := x.m * y.m
  let b := bitLen P
  if b ≤ 53 then { m := P, e := x.e + y.e }
  else
    let s := b - 53
    let m := rndDiv P (2 ^ s)
    if m = 2 ^ 53 then { m := 2 ^ 52, e := x.e + y.e + (s + 1) }
    else { m := m, e := x.e + y.e + s }

/-- Binary64 addition of positive values: exact aligned sum, then one
rounding. -/
def fpAdd (x y : FP) : FP :=
  let e := min x.e y.e
  let S := x.m * 2 ^ (x.e - e).toNat + y.m * 2 ^ (y.e - e).toNat
  let b := bitLen S
  if b ≤ 53 then { m := S, e := e }
  else
    let s := b - 53
    let m := rndDiv S (2 ^ s)
    if m = 2 ^ 53 then { m := 2 ^ 52, e := e + (s + 1) }
    else { m := m, e := e + s }

/-- The binary64 value of the source literal `0.6`. -/
def fp06 : FP := fpOfRat 6 10

/-- The binary64 value of the source literal `0.4`. -/
def fp04 : FP := fpOfRat 4 10

/-- The binary64 value the amount string "0.11" parses to — a value the
number input accepts (the handler guard checks only non-emptiness). -/
def fp011 : FP := fpOfRat 11 100

/-- `amount * 0.6` of `handleNegotiate`, in the program's own binary64
arithmetic. -/
def fpLabor (amount : FP) : FP := fpMul amount fp06

/-- `amount * 0.4` of `handleNegotiate`, in the program's own binary64
arithmetic. -/
def fpParts (amount : FP) : FP := fpMul amount fp04

/-- Every handler step preserves the relation between `currentEstimate` and
the agent/AI estimate fields. -/
theorem Step.preserves_agentOrAi {c c' : Claim} (h : Step c c')
    (hc : c.currentEstimate = agentOrAiEstimate c) :
    c'.currentEstimate = agentOrAiEstimate c' := by
  cases h with
  | statusChange s => simpa [handleStatusChange, agentOrAiEstimate] using hc
  | approve => simpa [handleApproveEstimate, agentOrAiEstimate] using hc
  | reject reason now =>
    unfold handleRejectClaim
    split
    · exact hc
    · simpa [agentOrAiEstimate] using hc
  | addComment role text now =>
    unfold handleAddComment
    split
    · exact hc
    · simpa [agentOrAiEstimate] using hc
  | negotiate role amt reason now =>
    unfold handleNegotiate
    split
    · exact hc
    · cases role <;> simp_all [agentOrAiEstimate]

/-- Both bases of reachability satisfy the relation. -/
theorem base_agentOrAi (c0 : Claim)
    (h : (∃ data now io ao so, c0 = handleCreateClaim data now io ao so) ∨
      (∃ now, c0 = initialMockClaim now)) :
    c0.currentEstimate = agentOrAiEstimate c0 := by
  rcases h with ⟨data, now, io, ao, so, rfl⟩ | ⟨now, rfl⟩
  · unfold handleCreateClaim baseClaim
    rcases io with e | imgs
    · simp [agentOrAiEstimate]
    · rcases ao with e | raw <;> simp [analyzeDamage, agentOrAiEstimate]
  · simp [initialMockClaim, agentOrAiEstimate]

/-- Evaluation of `parseFloat?` at the literal "1500". -/
theorem parseFloat?_lit_1500 : parseFloat? "1500" = some 1500 := by
  have h1 : parseFloat? "1500" =
      some (1 * ((natOfDigits ['1', '5', '0', '0'] : ℚ) +
        (natOfDigits ([] : List Char) : ℚ) / 10 ^ (0 : ℕ))) := rfl
  have h2 : natOfDigits ['1', '5', '0', '0'] = 1500 := rfl
  have h3 : natOfDigits ([] : List Char) = 0 := rfl
  rw [h1, h2, h3]
  norm_num

/-- Evaluation of `parseFloat?` at the literal "1800". -/
theorem parseFloat?_lit_1800 : parseFloat? "1800" = some 1800 := by
  have h1 : parseFloat? "1800" =
      some (1 * ((natOfDigits ['1', '8', '0', '0'] : ℚ) +
        (natOfDigits ([] : List Char) : ℚ) / 10 ^ (0 : ℕ))) := rfl
  have h2 : natOfDigits ['1', '8', '0', '0'] = 1800 := rfl
  have h3 : natOfDigits ([] : List Char) = 0 := rfl
  rw [h1, h2, h3]
  norm_num

/-! ## Claim theorems -/

/-- C9: a failure of the underlying AI call never reaches the caller of
`analyzeDamage` as a hard error: whenever the image conversion succeeded and
the model call failed, the result is the well-formed degraded value with the
manual-review assessment and an all-zero AI-sourced estimate. -/
theorem c9_analyzeDamage_swallows_ai_failure (imgs : List String) (e : Unit) :
    analyzeDamage (Except.ok imgs) (Except.error e) =
      Except.ok
        { assessment := "AI Analysis unavailable. Please review manually.",
          estimate := { totalCost := 0, laborCost := 0, partsCost := 0,
                        details := "Manual estimation required.",
                        source := EstimateSource.AI } } := rfl

/-- C10: when the underlying call of `findRepairShops` succeeds the result
is non-empty — if no usable suggestion is extracted from the grounding
chunks the fixed three-shop fallback list is returned — and an empty list is
returned exactly when the call throws. -/
theorem c10_findRepairShops_success_nonempty (chunks : Option (List GroundingChunk)) :
    findRepairShops (Except.ok chunks) ≠ [] ∧
    ((chunks.getD []).filterMap chunkToSuggestion = [] →
      findRepairShops (Except.ok chunks) = fallbackShops) ∧
    (∀ e : Unit, findRepairShops (Except.error e) = []) ∧
    fallbackShops.map RepairShopSuggestion.name =
      ["FixItRight Auto Body", "Prestige Collision Center", "Quick Fix Garage"] := by
  refine ⟨?_, ?_, fun e => rfl, rfl⟩
  · by_cases h : (chunks.getD []).filterMap chunkToSuggestion = []
    · simp [findRepairShops, h, fallbackShops]
    · simp [findRepairShops, h]
  · intro h
    simp [findRepairShops, h]

theorem c10_witness :
    findRepairShops (Except.ok none) = fallbackShops :=
  (c10_findRepairShops_success_nonempty none).2.1 rfl

/-- C4: an empty rejection reason leaves the claim unchanged; a non-empty
reason sets the status to `Rejected` and appends exactly one comment with
text `CLAIM REJECTED: <reason>` authored as Insurance Agent, both applied in
the same single resulting record (no other field changes). -/
theorem c4_handleRejectClaim_spec (c : Claim) (reason : String) (now : ℕ) :
    (reason = "" → handleRejectClaim c reason now = c) ∧
    (reason ≠ "" →
      handleRejectClaim c reason now =
        { c with
          status := ClaimStatus.Rejected,
          comments := c.comments ++
            [{ id := toString now, authorRole := UserRole.InsuranceAgent,
               authorName := "Agent", text := "CLAIM REJECTED: " ++ reason,
               timestamp := now }] }) := by
  constructor
  · intro h
    simp [handleRejectClaim, h]
  · intro h
    simp [handleRejectClaim, h]

theorem c4_witness :
    handleRejectClaim (initialMockClaim 0) "Fraud suspected" 7 =
      { initialMockClaim 0 with
        status := ClaimStatus.Rejected,
        comments := (initialMockClaim 0).comments ++
          [{ id := toString 7, authorRole := UserRole.InsuranceAgent,
             authorName := "Agent", text := "CLAIM REJECTED: Fraud suspected",
             timestamp := 7 }] } :=
  (c4_handleRejectClaim_spec (initialMockClaim 0) "Fraud suspected" 7).2 (by decide)

set_option maxRecDepth 8000 in
/-- C7 counterexample: in the program's own binary64 arithmetic the split
identities all fail for the representable amount 0.11 (a value the amount
input accepts): the stored labor cost differs from `0.6 × t`, the stored
parts cost differs from `0.4 × t`, and labor plus parts differs from the
total (0.066 + 0.044000000000000004 = 0.11000000000000001 ≠ 0.11). -/
theorem c7_counterexample :
    fpToRat (fpLabor fp011) ≠ (6/10) * fpToRat fp011 ∧
    fpToRat (fpParts fp011) ≠ (4/10) * fpToRat fp011 ∧
    fpToRat (fpAdd (fpLabor fp011) (fpParts fp011)) ≠ fpToRat fp011 := by
  have h011 : fp011 = { m := 7926335344172073, e := -56 } := by decide
  have hl : fpLabor fp011 = { m := 4755801206503244, e := -56 } := by decide
  have hp : fpParts fp011 = { m := 6341068275337659, e := -57 } := by decide
  have hs : fpAdd (fpLabor fp011) (fpParts fp011) =
      { m := 7926335344172074, e := -56 } := by decide
  have hz56 : ((2 : ℚ) ^ (-56 : ℤ)) ≠ 0 := zpow_ne_zero _ two_ne_zero
  have hz57 : ((2 : ℚ) ^ (-57 : ℤ)) ≠ 0 := zpow_ne_zero _ two_ne_zero
  have h56 : ((2 : ℚ) ^ (-56 : ℤ)) = 2 * 2 ^ (-57 : ℤ) := by
    rw [show (-56 : ℤ) = 1 + -57 by norm_num, zpow_add₀ two_ne_zero]
    norm_num
  refine ⟨?_, ?_, ?_⟩
  · rw [hl, h011]
    intro h
    simp only [fpToRat] at h
    rw [← mul_assoc] at h
    have := mul_right_cancel₀ hz56 h
    norm_num at this
  · rw [hp, h011]
    intro h
    simp only [fpToRat] at h
    push_cast at h
    rw [h56, show (4 : ℚ)/10 * ((7926335344172073 : ℚ) * (2 * 2 ^ (-57 : ℤ))) =
      (4/10 * (7926335344172073 * 2)) * 2 ^ (-57 : ℤ) by ring] at h
    have := mul_right_cancel₀ hz57 h
    norm_num at this
  · rw [hs, h011]
    intro h
    simp only [fpToRat] at h
    have := mul_right_cancel₀ hz56 h
    norm_num at this

/-- C7 amended: in the exact-rational idealization of the source's
`amount * 0.6` / `amount * 0.4` split, every successful estimate proposal
with parsed total `t` stores an estimate with labor cost `0.6 × t`, parts
cost `0.4 × t`, and labor plus parts equal to the total; the exactness is a
property of that idealization only — in the binary64 arithmetic the
program actually performs, all three identities fail for some accepted
amounts (see the counterexample at 0.11). -/
theorem c7_proposeEstimate_split (c : Claim) (role : UserRole)
    (s reason : String) (now : ℕ) (t : ℚ)
    (hs : s ≠ "") (hr : reason ≠ "") (hp : parseFloat? s = some t) :
    (role = UserRole.RepairShop →
      ∃ e, (handleNegotiate c role s reason now).repairShopEstimate = some e ∧
        e.totalCost = t ∧ e.laborCost = (6/10) * t ∧ e.partsCost = (4/10) * t ∧
        e.laborCost + e.partsCost = e.totalCost) ∧
    (role = UserRole.InsuranceAgent →
      ∃ e, (handleNegotiate c role s reason now).agentEstimate = some e ∧
        e.totalCost = t ∧ e.laborCost = (6/10) * t ∧ e.partsCost = (4/10) * t ∧
        e.laborCost + e.partsCost = e.totalCost) := by
  constructor
  · rintro rfl
    refine ⟨{ totalCost := t, laborCost := t * (6/10), partsCost := t * (4/10),
              details := reason, source := EstimateSource.RepairShop },
        ?_, rfl, by ring, by ring, by ring⟩
    simp [handleNegotiate, hs, hr, parseFloatD, hp]
  · rintro rfl
    refine ⟨{ totalCost := t, laborCost := t * (6/10), partsCost := t * (4/10),
              details := reason, source := EstimateSource.InsuranceAgent },
        ?_, rfl, by ring, by ring, by ring⟩
    simp [handleNegotiate, hs, hr, parseFloatD, hp]

theorem c7_witness :
    ∃ e, (handleNegotiate (initialMockClaim 0) UserRole.RepairShop
        "1500" "Internal structural damage" 5).repairShopEstimate = some e ∧
      e.totalCost = 1500 ∧ e.laborCost = (6/10) * 1500 ∧
      e.partsCost = (4/10) * 1500 ∧ e.laborCost + e.partsCost = e.totalCost :=
  (c7_proposeEstimate_split (initialMockClaim 0) UserRole.RepairShop
    "1500" "Internal structural damage" 5 1500 (by decide) (by decide)
    parseFloat?_lit_1500).1 rfl

/-- C8: a successful repair-shop proposal stores the new estimate in
`repairShopEstimate` and leaves `currentEstimate` (and every other field)
unchanged except for the single appended proposal comment; a successful
agent proposal stores it in `agentEstimate` and also overwrites
`currentEstimate`; in both cases the one appended comment reads
`Proposed new estimate: <formatted amount>. Reason: <justification>` and is
authored by the proposing role. -/
theorem c8_proposeEstimate_routing (c : Claim) (role : UserRole)
    (s reason : String) (now : ℕ) (t : ℚ)
    (hs : s ≠ "") (hr : reason ≠ "") (hp : parseFloat? s = some t) :
    (role = UserRole.RepairShop →
      handleNegotiate c role s reason now =
        { c with
          repairShopEstimate := some
            { totalCost := t, laborCost := t * (6/10), partsCost := t * (4/10),
              details := reason, source := EstimateSource.RepairShop },
          comments := c.comments ++
            [{ id := toString now, authorRole := UserRole.RepairShop,
               authorName := UserRole.RepairShop.label,
               text := "Proposed new estimate: " ++ formatCurrency t ++
                       ". Reason: " ++ reason,
               timestamp := now }] }) ∧
    (role = UserRole.InsuranceAgent →
      handleNegotiate c role s reason now =
        { c with
          agentEstimate := some
            { totalCost := t, laborCost := t * (6/10), partsCost := t * (4/10),
              details := reason, source := EstimateSource.InsuranceAgent },
          currentEstimate := some
            { totalCost := t, laborCost := t * (6/10), partsCost := t * (4/10),
              details := reason, source := EstimateSource.InsuranceAgent },
          comments := c.comments ++
            [{ id := toString now, authorRole := UserRole.InsuranceAgent,
               authorName := UserRole.InsuranceAgent.label,
               text := "Proposed new estimate: " ++ formatCurrency t ++
                       ". Reason: " ++ reason,
               timestamp := now }] }) := by
  constructor
  · rintro rfl
    simp [handleNegotiate, hs, hr, parseFloatD, hp]
  · rintro rfl
    simp [handleNegotiate, hs, hr, parseFloatD, hp]

theorem c8_witness :
    handleNegotiate (initialMockClaim 0) UserRole.InsuranceAgent
        "1800" "Final adjusted amount" 9 =
      { initialMockClaim 0 with
        agentEstimate := some
          { totalCost := 1800, laborCost := 1800 * (6/10), partsCost := 1800 * (4/10),
            details := "Final adjusted amount", source := EstimateSource.InsuranceAgent },
        currentEstimate := some
          { totalCost := 1800, laborCost := 1800 * (6/10), partsCost := 1800 * (4/10),
            details := "Final adjusted amount", source := EstimateSource.InsuranceAgent },
        comments := (initialMockClaim 0).comments ++
          [{ id := toString 9, authorRole := UserRole.InsuranceAgent,
             authorName := UserRole.InsuranceAgent.label,
             text := "Proposed new estimate: " ++ formatCurrency 1800 ++
                     ". Reason: " ++ "Final adjusted amount",
             timestamp := 9 }] } :=
  (c8_proposeEstimate_routing (initialMockClaim 0) UserRole.InsuranceAgent
    "1800" "Final adjusted amount" 9 1800 (by decide) (by decide)
    parseFloat?_lit_1800).2 rfl

/-- C1 counterexample: the triple (Policyholder, `Estimated`, advance to
`Closed`) is not in the §4.1 table, yet the status-change operation does not
reject — it returns a claim whose status did change to `Closed`. No
`InvalidTransition` value exists anywhere in the code. -/
theorem c1_counterexample :
    specTransitionTable (Actor.user UserRole.Policyholder) ClaimStatus.Estimated
        ClaimStatus.Closed = false ∧
    (initialMockClaim 0).status = ClaimStatus.Estimated ∧
    (handleStatusChange (initialMockClaim 0) ClaimStatus.Closed).status =
      ClaimStatus.Closed ∧
    handleStatusChange (initialMockClaim 0) ClaimStatus.Closed ≠
      initialMockClaim 0 := by
  refine ⟨rfl, rfl, rfl, fun h => ?_⟩
  have hs := congrArg Claim.status h
  exact absurd hs (by decide)

/-- C1 amended: the view layer offers a status-change control only for
(role, status) pairs whose transition is in the §4.1 table — including the
rejection block, offered exactly on non-terminal claims — so through the UI
the status changes only along table rows; but the underlying
`handleStatusChange` performs no validation at all: invoked with any target
status it applies it and returns a changed claim instead of rejecting. -/
theorem c1_amended :
    (∀ (role : UserRole) (s t : ClaimStatus), uiOfferedTransition role s = some t →
      specTransitionTable (Actor.user role) s t = true) ∧
    (∀ (role : UserRole) (s : ClaimStatus), uiRejectOffered role s = true →
      specTransitionTable (Actor.user role) s ClaimStatus.Rejected = true) ∧
    (∀ (c : Claim) (t : ClaimStatus), c.status ≠ t →
      (handleStatusChange c t).status = t ∧ handleStatusChange c t ≠ c) := by
  refine ⟨by decide, by decide, fun c t h => ⟨rfl, fun he => ?_⟩⟩
  exact h (congrArg Claim.status he).symm

theorem c1_amended_witness :
    (handleStatusChange (initialMockClaim 0) ClaimStatus.Closed).status =
      ClaimStatus.Closed ∧
    handleStatusChange (initialMockClaim 0) ClaimStatus.Closed ≠
      initialMockClaim 0 :=
  c1_amended.2.2 (initialMockClaim 0) ClaimStatus.Closed (by decide)

/-- C2 counterexample: `rejectedOnce` is already `Rejected`, yet a second
rejection call does not fail with any `TerminalState` error and does not
leave the claim unchanged — it appends another rejection comment. -/
theorem c2_counterexample :
    rejectedOnce.status = ClaimStatus.Rejected ∧
    rejectedTwice.status = ClaimStatus.Rejected ∧
    rejectedTwice.comments.length = rejectedOnce.comments.length + 1 ∧
    rejectedTwice ≠ rejectedOnce := by
  refine ⟨rfl, rfl, rfl, fun h => ?_⟩
  have hl := congrArg (fun c : Claim => c.comments.length) h
  exact absurd hl (by decide)

/-- C2 amended: on a terminal (`Closed`/`Rejected`) claim the view layer
offers no status-change control, no rejection block and no negotiation form,
so through the UI only comment addition remains (and it still works, leaving
the status untouched); but no `TerminalState` error exists — the handlers do
no terminal check, and invoked directly on an already-rejected claim a
second rejection succeeds and appends another comment. -/
theorem c2_amended :
    (∀ role : UserRole,
      uiOfferedTransition role ClaimStatus.Closed = none ∧
      uiOfferedTransition role ClaimStatus.Rejected = none ∧
      uiRejectOffered role ClaimStatus.Closed = false ∧
      uiRejectOffered role ClaimStatus.Rejected = false ∧
      uiNegotiateOffered role ClaimStatus.Closed = false ∧
      uiNegotiateOffered role ClaimStatus.Rejected = false) ∧
    (∀ (c : Claim) (role : UserRole) (text : String) (now : ℕ),
      text.trim ≠ "" →
        (handleAddComment c role text now).comments.length = c.comments.length + 1 ∧
        (handleAddComment c role text now).status = c.status) ∧
    (∀ (c : Claim) (reason : String) (now : ℕ),
      c.status = ClaimStatus.Rejected → reason ≠ "" →
        (handleRejectClaim c reason now).comments.length = c.comments.length + 1 ∧
        handleRejectClaim c reason now ≠ c) := by
  refine ⟨by decide, ?_, ?_⟩
  · intro c role text now h
    constructor <;> simp [handleAddComment, h]
  · intro c reason now hterm h
    refine ⟨by simp [handleRejectClaim, h], fun he => ?_⟩
    have hl := congrArg (fun c : Claim => c.comments.length) he
    simp [handleRejectClaim, h] at hl

theorem c2_amended_witness :
    (handleRejectClaim rejectedOnce "Duplicate call" 2).comments.length =
      rejectedOnce.comments.length + 1 ∧
    handleRejectClaim rejectedOnce "Duplicate call" 2 ≠ rejectedOnce :=
  c2_amended.2.2 rejectedOnce "Duplicate call" 2 rfl (by decide)

/-- C3 counterexample: after a repair-shop proposal on a reachable claim
with no agent estimate, the stored `currentEstimate` is still the AI
estimate, while the §4.2 precedence recomputation yields the repair-shop
estimate — the stored value and the derived view disagree. -/
theorem c3_counterexample :
    Reachable c3After ∧
    c3After.agentEstimate = none ∧
    c3After.repairShopEstimate.isSome = true ∧
    c3After.currentEstimate ≠ specCurrentEstimate c3After := by
  refine ⟨⟨c3Base,
      Or.inl ⟨sampleIntakeData, 0, Except.ok [], Except.ok sampleRaw,
        Except.error (), rfl⟩,
      Relation.ReflTransGen.single
        (Step.negotiate c3Base UserRole.RepairShop "1500"
          "Internal structural damage" 5)⟩,
    rfl, rfl, fun h => ?_⟩
  have hc : c3After.currentEstimate.map Estimate.details =
      some "Replace bumper cover." := rfl
  have hd : (specCurrentEstimate c3After).map Estimate.details =
      some "Internal structural damage" := rfl
  rw [h, hd] at hc
  exact absurd hc (by decide)

/-- C3 amended: on every reachable claim state the stored `currentEstimate`
equals the agent estimate when present and the AI estimate otherwise — the
repair-shop estimate never feeds `currentEstimate`: a shop proposal leaves
`currentEstimate` untouched, so after a shop proposal with no agent estimate
it still holds the AI estimate rather than the §4.2 shop-beats-AI
precedence value. -/
theorem c3_amended :
    (∀ c : Claim, Reachable c → c.currentEstimate = agentOrAiEstimate c) ∧
    (∀ (c : Claim) (a r : String) (n : ℕ),
      (handleNegotiate c UserRole.RepairShop a r n).currentEstimate =
        c.currentEstimate) := by
  constructor
  · rintro c ⟨c0, hbase, hsteps⟩
    induction hsteps with
    | refl => exact base_agentOrAi c0 hbase
    | tail _ hstep ih => exact hstep.preserves_agentOrAi ih
  · intro c a r n
    unfold handleNegotiate
    split
    · rfl
    · simp

theorem c3_amended_witness :
    c3After.currentEstimate = agentOrAiEstimate c3After :=
  c3_amended.1 c3After
    ⟨c3Base,
      Or.inl ⟨sampleIntakeData, 0, Except.ok [], Except.ok sampleRaw,
        Except.error (), rfl⟩,
      Relation.ReflTransGen.single
        (Step.negotiate c3Base UserRole.RepairShop "1500"
          "Internal structural damage" 5)⟩

/-- C5 counterexample: when the gateway call throws during intake, the
resulting claim does carry the zero-cost fallback estimate and the
manual-review assessment — but its status is `Estimated`, not `Submitted`:
`analyzeDamage` swallows the failure, so the intake flow proceeds on its
success path and the `Submitted` reversion never fires for it. -/
theorem c5_counterexample :
    (handleCreateClaim sampleIntakeData 0 (Except.ok []) (Except.error ())
        (Except.ok none)).aiEstimate.map Estimate.totalCost = some 0 ∧
    (handleCreateClaim sampleIntakeData 0 (Except.ok []) (Except.error ())
        (Except.ok none)).aiDamageAssessment =
      some "AI Analysis unavailable. Please review manually." ∧
    (handleCreateClaim sampleIntakeData 0 (Except.ok []) (Except.error ())
        (Except.ok none)).status = ClaimStatus.Estimated ∧
    (handleCreateClaim sampleIntakeData 0 (Except.ok []) (Except.error ())
        (Except.ok none)).status ≠ ClaimStatus.Submitted := by
  refine ⟨rfl, rfl, rfl, by decide⟩

/-- C5 amended: a thrown AI gateway call is swallowed by `analyzeDamage`,
so intake completes with `aiEstimate.totalCost = 0`, the manual-review
assessment, and status `Estimated`; the `Submitted` reversion of §4.1 fires
only when the intake flow itself throws (image processing), and in that
case the claim keeps no AI estimate at all. -/
theorem c5_gateway_failure_paths (data : CreateClaimData) (now : ℕ)
    (imgs : List String) (e : Unit) (ao : Except Unit AnalysisRaw)
    (so : Except Unit (Option (List GroundingChunk))) :
    (handleCreateClaim data now (Except.ok imgs) (Except.error e) so).status =
      ClaimStatus.Estimated ∧
    (handleCreateClaim data now (Except.ok imgs) (Except.error e) so).aiDamageAssessment =
      some "AI Analysis unavailable. Please review manually." ∧
    (handleCreateClaim data now (Except.ok imgs) (Except.error e) so).aiEstimate.map
      Estimate.totalCost = some 0 ∧
    (handleCreateClaim data now (Except.error e) ao so).status =
      ClaimStatus.Submitted ∧
    (handleCreateClaim data now (Except.error e) ao so).aiEstimate = none :=
  ⟨rfl, rfl, rfl, rfl, rfl⟩

/-- C6: no mutation handler writes `updatedAt` — every one of them returns
a claim whose `updatedAt` equals the input's, whatever the current time
`now` is; only claim creation sets the field. This contradicts the spec's
requirement that every successful mutation set `updatedAt` anew. -/
theorem c6_updatedAt_never_written (c : Claim) (s : ClaimStatus)
    (role : UserRole) (amt reason text rr : String) (now : ℕ) :
    (handleStatusChange c s).updatedAt = c.updatedAt ∧
    (handleApproveEstimate c).updatedAt = c.updatedAt ∧
    (handleRejectClaim c rr now).updatedAt = c.updatedAt ∧
    (handleNegotiate c role amt reason now).updatedAt = c.updatedAt ∧
    (handleAddComment c role text now).updatedAt = c.updatedAt ∧
    (baseClaim sampleIntakeData now).updatedAt = now := by
  refine ⟨rfl, rfl, ?_, ?_, ?_, rfl⟩
  · unfold handleRejectClaim
    split <;> rfl
  · unfold handleNegotiate
    split
    · rfl
    · cases role <;> simp
  · unfold handleAddComment
    split <;> rfl

end ICP
